import Mathlib

/-!
Shallow embedding of the go-pvaccess server protocol engine (src/server.go):
status values, the per-connection channel and request tables, the command
handlers and the request lifecycle state machine, with theorems checking the
specification against them. Types of the pvdata / proto / channel-provider
packages that are not part of src/server.go are modelled from the spec and
say so in their doc comments.
-/

namespace PvAccess

/-- Modelled from the spec: severity of a status value, a tri-state
OK / ERROR / FATAL (the type pvdata.PVStatusType is not under src/). -/
inductive PVStatusType where
  | OK
  | ERROR
  | FATAL
  deriving DecidableEq

/-- Modelled from the spec: a status is a severity plus a human-readable
message (pvdata.PVStatus, not under src/); the Go zero value has severity OK
and an empty message. A PVStatus can itself be used as a Go error value. -/
structure PVStatus where
  Type' : PVStatusType := PVStatusType.OK
  message : String := ""
  deriving DecidableEq

/-- A Go error value as the handlers produce them: either a pvdata.PVStatus
used as an error, or a plain error built with fmt.Errorf or errors.New
carrying only a message. -/
inductive GoError where
  | status (s : PVStatus)
  | errorf (msg : String)
  deriving DecidableEq

/-- Function errorToStatus of src/server.go: a nil error maps to the zero
status, an error that is itself a PVStatus passes through unchanged, and any
other error is wrapped with severity FATAL and its textual description. -/
def errorToStatus : Option GoError → PVStatus
  | none => {}
  | some (GoError.status s) => s
  | some (GoError.errorf m) => { Type' := PVStatusType.FATAL, message := m }

/-- Type requestStatus of src/server.go with its five constants. -/
inductive RequestStatus where
  | INIT
  | READY
  | REQUEST_IN_PROGRESS
  | CANCELLED
  | DESTROYED
  deriving DecidableEq

/-- Map requestStatusNames of src/server.go. -/
def requestStatusNames : RequestStatus → String
  | RequestStatus.INIT => "INIT"
  | RequestStatus.READY => "READY"
  | RequestStatus.REQUEST_IN_PROGRESS => "REQUEST_IN_PROGRESS"
  | RequestStatus.CANCELLED => "CANCELLED"
  | RequestStatus.DESTROYED => "DESTROYED"

/-- Lowercase hexadecimal rendering of a natural number, as the Go verb
percent-x prints it. -/
def natToHex (n : Nat) : String := String.mk (Nat.toDigits 16 n)

/-- Go percent-x formatting of an integer: a minus sign followed by the
hexadecimal magnitude when negative. -/
def intToHex (i : Int) : String :=
  if i < 0 then "-" ++ natToHex i.natAbs else natToHex i.natAbs

/-- Modelled from the spec: an argument structure (pvdata.PVStructure, not
under src/); its contents are opaque to the protocol engine, only its type
identity matters to the handlers embedded here. -/
structure PVStructure where
  ID : String := ""
  deriving DecidableEq

/-- Dynamically typed payload of a decoded PVRequest (field req.PVRequest.Data
of type interface, in Go): either a PVStructure or a value of some other type,
recorded with its Go type name as the percent-T verb would print it. -/
inductive PVData where
  | struct (s : PVStructure)
  | nonStruct (typeName : String)
  deriving DecidableEq

/-- Modelled from the spec: the direct RPC-execution capability
(method ChannelRPC of interface ChannelRPCer, not under src/): from the
argument structure produce a result value and an error, either possibly nil.
The context argument is elided. -/
abbrev ChannelRPCFn := PVStructure → Option PVData × Option GoError

/-- Modelled from the spec: a channel exposes a name, optionally the
RPC-factory capability (method CreateChannelRPC of interface
ChannelRPCCreator) and optionally the direct RPC-execution capability
(interface ChannelRPCer); in Go these are optional interfaces probed by type
assertion, modelled as optional fields. -/
structure Channel where
  name : String
  createChannelRPC : Option (PVStructure → Except GoError ChannelRPCFn) := none
  channelRPC : Option ChannelRPCFn := none

/-- Field doer of a request (type interface in Go): either a value
implementing ChannelRPCer or some other value; the type assertion in the EXEC
branch succeeds exactly on the first constructor. -/
inductive Doer where
  | rpc (f : ChannelRPCFn)
  | nonRPC

/-- Struct request of src/server.go: executor, cancellation handle (modelled
as a flag recording whether one is set) and status. -/
structure Request where
  doer : Doer
  hasCancel : Bool := false
  status : RequestStatus

/-- Lookup in a Go map modelled as an association list with unique keys; a
missing key yields none (the zero value in Go). -/
def mlookup {α : Type} : List (Int × α) → Int → Option α
  | [], _ => none
  | (k1, v) :: rest, k => if k1 = k then some v else mlookup rest k

/-- Go map update, keeping keys unique: replace the binding of the key when
present, append a new binding otherwise. -/
def minsert {α : Type} : List (Int × α) → Int → α → List (Int × α)
  | [], k, v => [(k, v)]
  | (k1, v1) :: rest, k, v =>
    if k1 = k then (k, v) :: rest else (k1, v1) :: minsert rest k v

/-- Per-connection mutable state of struct serverConn in src/server.go: the
channel table keyed by server-assigned channel ID and the request table keyed
by client-assigned request ID. -/
structure ServerConn where
  channels : List (Int × Channel)
  requests : List (Int × Request)

/-- Method addRequest of src/server.go: reject the new request when an entry
for the ID already exists with a status other than DESTROYED, store it under
the ID otherwise. An error result leaves the table of the caller unchanged. -/
def addRequest (reqs : List (Int × Request)) (id : Int) (r : Request) :
    Except GoError (List (Int × Request)) :=
  match mlookup reqs id with
  | some existing =>
    if existing.status ≠ RequestStatus.DESTROYED then
      Except.error (GoError.errorf ("request ID " ++ intToHex id ++
        " already exists with status " ++ requestStatusNames existing.status))
    else
      Except.ok (minsert reqs id r)
  | none => Except.ok (minsert reqs id r)

/-- Modelled from the spec: subcommand code for INIT in the CHANNEL_RPC
message family (constant proto.CHANNEL_RPC_INIT, not under src/); only its
identity matters to the embedded handlers. -/
def CHANNEL_RPC_INIT : Nat := 8

/-- Modelled from the spec: the DESTROY flag combinable with the EXEC
subcommand (constant proto.CHANNEL_RPC_DESTROY, not under src/); a nonzero
one-bit mask. -/
def CHANNEL_RPC_DESTROY : Nat := 16

/-- Struct proto.ChannelRPCRequest: server channel ID, request ID, subcommand
byte and the decoded argument payload. -/
structure ChannelRPCRequest where
  serverChannelID : Int
  requestID : Int
  subcommand : Nat
  pvRequestData : PVData

/-- Data captured by the background execution task the EXEC branch spawns:
the resolved executor, the argument structure, and the request ID and
subcommand echoed into the completion response. -/
structure SpawnedExec where
  rpcer : ChannelRPCFn
  args : PVStructure
  requestID : Int
  subcommand : Nat

/-- Outcome of handleChannelRPCBody: a returned error, a nil return (INIT
success), the asyncOperation sentinel together with the spawned task, or a Go
runtime panic from dereferencing a nil request pointer. -/
inductive BodyResult where
  | err (e : GoError) (conn : ServerConn)
  | ok (conn : ServerConn)
  | async (conn : ServerConn) (task : SpawnedExec)
  | nilDeref

/-- Shared tail of the INIT branch of handleChannelRPCBody: register a
request bound to the resolved executor with status READY, propagating a
registration error. -/
def initFinish (c : ServerConn) (req : ChannelRPCRequest) (rpcer : ChannelRPCFn) :
    BodyResult :=
  match addRequest c.requests req.requestID
      ({ doer := Doer.rpc rpcer, status := RequestStatus.READY }) with
  | Except.error e => BodyResult.err e c
  | Except.ok reqs => BodyResult.ok { c with requests := reqs }

/-- Method handleChannelRPCBody of src/server.go. The EXEC (default) branch
reads the request table without an existence check: a missing entry is a nil
pointer whose status field dereferences to a runtime panic, embedded as the
nilDeref result. -/
def handleChannelRPCBody (c : ServerConn) (req : ChannelRPCRequest) : BodyResult :=
  match mlookup c.channels req.serverChannelID with
  | none =>
    BodyResult.err (GoError.errorf ("unknown channel ID " ++
      intToHex req.serverChannelID)) c
  | some channel =>
    match req.pvRequestData with
    | PVData.nonStruct t =>
      BodyResult.err (GoError.errorf ("RPC arguments were of type " ++ t ++
        ", expected PVStructure")) c
    | PVData.struct args =>
      if req.subcommand = CHANNEL_RPC_INIT then
        match channel.createChannelRPC with
        | some create =>
          match create args with
          | Except.error e => BodyResult.err e c
          | Except.ok rpcer => initFinish c req rpcer
        | none =>
          match channel.channelRPC with
          | some rpcer => initFinish c req rpcer
          | none =>
            BodyResult.err (GoError.errorf ("channel \"" ++ channel.name ++
              "\" (ID " ++ intToHex req.serverChannelID ++
              ") does not support RPC")) c
      else
        match mlookup c.requests req.requestID with
        | none => BodyResult.nilDeref
        | some r =>
          if r.status ≠ RequestStatus.READY then
            BodyResult.err (GoError.status
              { Type' := PVStatusType.ERROR, message := "request not READY" }) c
          else
            match r.doer with
            | Doer.rpc rpcer =>
              let r1 : Request :=
                { r with status := RequestStatus.REQUEST_IN_PROGRESS, hasCancel := true }
              BodyResult.async
                { c with requests := minsert c.requests req.requestID r1 }
                { rpcer := rpcer, args := args,
                  requestID := req.requestID, subcommand := req.subcommand }
            | Doer.nonRPC => BodyResult.err (GoError.errorf ("request not for RPC")) c

/-- Struct proto.ChannelRPCResponseInit: the synchronous status reply. -/
structure ChannelRPCResponseInit where
  requestID : Int
  subcommand : Nat
  status : PVStatus := {}
  deriving DecidableEq

/-- Struct proto.ChannelRPCResponse: the completion reply carrying the result
payload of an execution. -/
structure ChannelRPCResponse where
  requestID : Int
  subcommand : Nat
  status : PVStatus
  pvResponseData : Option PVData
  deriving DecidableEq

/-- Background task the EXEC branch hands to the task group of the connection
(the closure passed to c.g.Go): run the executor, build the completion
response, then set the status of the captured request back to READY, or to
DESTROYED when the subcommand carries the DESTROY flag. -/
def execTaskFinish (task : SpawnedExec) (r : Request) : ChannelRPCResponse × Request :=
  let out := task.rpcer task.args
  let resp : ChannelRPCResponse :=
    { requestID := task.requestID, subcommand := task.subcommand,
      status := errorToStatus out.2, pvResponseData := out.1 }
  let r1 := { r with status := RequestStatus.READY }
  let r2 :=
    if task.subcommand &&& CHANNEL_RPC_DESTROY = CHANNEL_RPC_DESTROY then
      { r1 with status := RequestStatus.DESTROYED }
    else r1
  (resp, r2)

/-- Result of handleChannelRPC: a synchronous reply was sent, or the body
started an asynchronous operation and the handler returned without replying,
or the body panicked. -/
inductive RPCHandlerResult where
  | sent (resp : ChannelRPCResponseInit) (conn : ServerConn)
  | asyncStarted (conn : ServerConn) (task : SpawnedExec)
  | panicked

/-- Method handleChannelRPC of src/server.go: run the body; the asyncOperation
sentinel suppresses the synchronous reply, any other outcome is mapped through
errorToStatus into a status reply echoing request ID and subcommand. -/
def handleChannelRPC (c : ServerConn) (req : ChannelRPCRequest) : RPCHandlerResult :=
  match handleChannelRPCBody c req with
  | BodyResult.async c1 task => RPCHandlerResult.asyncStarted c1 task
  | BodyResult.ok c1 =>
    RPCHandlerResult.sent
      { requestID := req.requestID, subcommand := req.subcommand,
        status := errorToStatus none } c1
  | BodyResult.err e c1 =>
    RPCHandlerResult.sent
      { requestID := req.requestID, subcommand := req.subcommand,
        status := errorToStatus (some e) } c1
  | BodyResult.nilDeref => RPCHandlerResult.panicked

/-- Modelled from the spec: a channel provider resolves a name to a channel,
to nil, or to an error (method CreateChannel of interface ChannelProvider, not
under src/). The context argument is elided. -/
structure ChannelProvider where
  createChannelFn : String → Except GoError (Option Channel)

/-- Modelled from the spec: method createChannel of serverConn is not under
src/. It queries the provider registry in order; the first provider returning
a non-nil channel wins and is registered in the channel table of the
connection under the client-chosen ID; a provider error aborts resolution
with no registration. -/
def createChannel (providers : List ChannelProvider) (c : ServerConn)
    (clientChannelID : Int) (name : String) :
    Except GoError (Option Channel × ServerConn) :=
  match providers with
  | [] => Except.ok (none, c)
  | p :: rest =>
    match p.createChannelFn name with
    | Except.error e => Except.error e
    | Except.ok (some ch) =>
      Except.ok (some ch, { c with channels := minsert c.channels clientChannelID ch })
    | Except.ok none => createChannel rest c clientChannelID name

/-- One entry of proto.CreateChannelRequest: client-chosen channel ID and
channel name. -/
structure CreateChannelEntry where
  clientChannelID : Int
  channelName : String

/-- Struct proto.CreateChannelRequest: the list of channel entries. -/
structure CreateChannelRequestMsg where
  channels : List CreateChannelEntry

/-- Struct proto.CreateChannelResponse; the Go zero values are ID 0 and the
OK status. -/
structure CreateChannelResponse where
  clientChannelID : Int := 0
  serverChannelID : Int := 0
  status : PVStatus := {}
  deriving DecidableEq

/-- Modelled from the spec: application command codes of the proto package
(not under src/); only their distinctness matters to the dispatch table. -/
def APP_CONNECTION_VALIDATION : Nat := 1

/-- Modelled from the spec: command code of a search request. -/
def APP_SEARCH_REQUEST : Nat := 3

/-- Modelled from the spec: command code of channel creation. -/
def APP_CHANNEL_CREATE : Nat := 7

/-- Modelled from the spec: command code of the validated acknowledgement. -/
def APP_CONNECTION_VALIDATED : Nat := 9

/-- Modelled from the spec: command code of the CHANNEL_RPC family. -/
def APP_CHANNEL_RPC : Nat := 20

/-- Payload of an application message the server sends. -/
inductive AppBody where
  | createChannelResp (r : CreateChannelResponse)
  | rpcInitResp (r : ChannelRPCResponseInit)
  | rpcResp (r : ChannelRPCResponse)
  | validated

/-- An application message the server sends with SendApp: command code plus
payload. -/
structure SentApp where
  command : Nat
  body : AppBody

/-- Method handleCreateChannelRequest of src/server.go: exactly one channel
entry is accepted; resolution outcomes map to an OK response echoing the
client ID as server ID, an unknown-channel ERROR, or the status of the
resolution error; any other entry count yields the wrong-number-of-channels
ERROR with no channel registered. The reply always carries the
APP_CHANNEL_CREATE command code. -/
def handleCreateChannelRequest (providers : List ChannelProvider) (c : ServerConn)
    (req : CreateChannelRequestMsg) : SentApp × ServerConn :=
  match req.channels with
  | [ch] =>
    match createChannel providers c ch.clientChannelID ch.channelName with
    | Except.error e =>
      ({ command := APP_CHANNEL_CREATE,
         body := AppBody.createChannelResp
           { clientChannelID := ch.clientChannelID,
             status := errorToStatus (some e) } }, c)
    | Except.ok (some _, c1) =>
      ({ command := APP_CHANNEL_CREATE,
         body := AppBody.createChannelResp
           { clientChannelID := ch.clientChannelID,
             serverChannelID := ch.clientChannelID } }, c1)
    | Except.ok (none, c1) =>
      ({ command := APP_CHANNEL_CREATE,
         body := AppBody.createChannelResp
           { clientChannelID := ch.clientChannelID,
             status := { Type' := PVStatusType.ERROR,
                         message := "unknown channel \"" ++ ch.channelName ++ "\"" } } },
       c1)
  | _ =>
    ({ command := APP_CHANNEL_CREATE,
       body := AppBody.createChannelResp
         { status := { Type' := PVStatusType.ERROR,
                       message := "wrong number of channels" } } }, c)

/-- Decoded body of a received application message; undecodable stands for a
payload that fails to decode as the type the handler expects. -/
inductive MessageBody where
  | connValidationResp
  | createChannelReq (m : CreateChannelRequestMsg)
  | channelRPCReq (m : ChannelRPCRequest)
  | searchReq
  | undecodable

/-- A framed application message as the connection layer delivers it. -/
structure Message where
  command : Nat
  body : MessageBody

/-- Result of handling one packet: normal return with the new state, the
messages sent and any task spawned; an error returned to the read loop
(connection-fatal); or a runtime panic. -/
inductive PacketResult where
  | ok (conn : ServerConn) (sent : List SentApp) (spawned : Option SpawnedExec)
  | fatal (e : GoError) (conn : ServerConn)
  | panicked

/-- Method handleConnectionValidation of src/server.go: decode the validation
response (only logged) and reply with the validated acknowledgement; a decode
failure is returned to the read loop. -/
def handleConnectionValidation (c : ServerConn) (msg : Message) : PacketResult :=
  match msg.body with
  | MessageBody.connValidationResp =>
    PacketResult.ok c [{ command := APP_CONNECTION_VALIDATED, body := AppBody.validated }] none
  | _ => PacketResult.fatal (GoError.errorf ("decode error")) c

/-- Method handleSearchRequest of src/server.go: decode the search request
and forward it to the external discovery responder; the forwarding itself is
outside the protocol engine and modelled as producing no reply here. -/
def handleSearchRequest (c : ServerConn) (msg : Message) : PacketResult :=
  match msg.body with
  | MessageBody.searchReq => PacketResult.ok c [] none
  | _ => PacketResult.fatal (GoError.errorf ("decode error")) c

/-- Method handleServerOnePacket of src/server.go with the serverDispatch
table inlined: the four known command codes go to their handlers, every other
command code returns nil with no reply and no state change. -/
def handleServerOnePacket (providers : List ChannelProvider) (c : ServerConn)
    (msg : Message) : PacketResult :=
  if msg.command = APP_CONNECTION_VALIDATION then handleConnectionValidation c msg
  else if msg.command = APP_CHANNEL_CREATE then
    match msg.body with
    | MessageBody.createChannelReq m =>
      match handleCreateChannelRequest providers c m with
      | (out, c1) => PacketResult.ok c1 [out] none
    | _ => PacketResult.fatal (GoError.errorf ("decode error")) c
  else if msg.command = APP_CHANNEL_RPC then
    match msg.body with
    | MessageBody.channelRPCReq m =>
      match handleChannelRPC c m with
      | RPCHandlerResult.sent resp c1 =>
        PacketResult.ok c1 [{ command := APP_CHANNEL_RPC, body := AppBody.rpcInitResp resp }] none
      | RPCHandlerResult.asyncStarted c1 task => PacketResult.ok c1 [] (some task)
      | RPCHandlerResult.panicked => PacketResult.panicked
    | _ => PacketResult.fatal (GoError.errorf ("decode error")) c
  else if msg.command = APP_SEARCH_REQUEST then handleSearchRequest c msg
  else PacketResult.ok c [] none

/-- Initial per-connection state built by newConn in src/server.go: empty
channel and request tables. -/
def initialConn : ServerConn := { channels := [], requests := [] }

/-- One atomic evolution of the connection state: the read loop handles one
packet without terminating, or a spawned execution task finishes and writes
the final status of its request back through the captured pointer. -/
inductive ConnStep (providers : List ChannelProvider) : ServerConn → ServerConn → Prop where
  | packet (c : ServerConn) (msg : Message) (c1 : ServerConn) (sent : List SentApp)
      (spawned : Option SpawnedExec)
      (h : handleServerOnePacket providers c msg = PacketResult.ok c1 sent spawned) :
      ConnStep providers c c1
  | taskFinish (c : ServerConn) (task : SpawnedExec) (r : Request)
      (h : mlookup c.requests task.requestID = some r) :
      ConnStep providers c
        { c with requests := minsert c.requests task.requestID (execTaskFinish task r).2 }

/-- Connection states reachable from the initial state. -/
def Reachable (providers : List ChannelProvider) (c : ServerConn) : Prop :=
  Relation.ReflTransGen (ConnStep providers) initialConn c

/-- Executor used by the concrete example states: returns an empty result and
no error. -/
def demoRPCFn : ChannelRPCFn := fun _ => (none, none)

/-- Example channel exposing only the direct RPC-execution capability. -/
def demoChannel : Channel := { name := "demo", channelRPC := some demoRPCFn }

/-- Example provider registry resolving every name to demoChannel. -/
def demoProviders : List ChannelProvider :=
  [{ createChannelFn := fun _ => Except.ok (some demoChannel) }]

/-- Example connection state holding demoChannel as channel 1 and no request. -/
def demoConn1 : ServerConn := { channels := [(1, demoChannel)], requests := [] }

/-- Example connection state holding demoChannel as channel 1 and a READY
request 7 bound to demoRPCFn. -/
def demoConn2 : ServerConn :=
  { channels := [(1, demoChannel)],
    requests := [(7, { doer := Doer.rpc demoRPCFn, status := RequestStatus.READY })] }

/-- Example CHANNEL_CREATE message creating channel 1 named demo. -/
def demoCreateMsg : Message :=
  { command := APP_CHANNEL_CREATE,
    body := MessageBody.createChannelReq
      { channels := [{ clientChannelID := 1, channelName := "demo" }] } }

/-- Example CHANNEL_RPC INIT request for request ID 7 on channel 1. -/
def demoInitReq : ChannelRPCRequest :=
  { serverChannelID := 1, requestID := 7, subcommand := CHANNEL_RPC_INIT,
    pvRequestData := PVData.struct {} }

/-- Example CHANNEL_RPC message carrying demoInitReq. -/
def demoInitMsg : Message :=
  { command := APP_CHANNEL_RPC, body := MessageBody.channelRPCReq demoInitReq }

/-- Example CHANNEL_RPC EXEC request for request ID 7 on channel 1. -/
def demoExecReq : ChannelRPCRequest :=
  { serverChannelID := 1, requestID := 7, subcommand := 64,
    pvRequestData := PVData.struct {} }

/-- Example CHANNEL_RPC INIT request on a channel ID no table holds. -/
def reqC5 : ChannelRPCRequest :=
  { serverChannelID := 42, requestID := 5, subcommand := CHANNEL_RPC_INIT,
    pvRequestData := PVData.struct {} }

/-- Reply the server sends for reqC5 on a connection with no channels. -/
def respC5 : ChannelRPCResponseInit :=
  { requestID := 5, subcommand := 8,
    status := { Type' := PVStatusType.FATAL, message := "unknown channel ID 2a" } }

/-- Status reply produced for a CHANNEL_RPC on an unknown server channel ID:
the plain unknown-channel error wrapped by errorToStatus as severity FATAL. -/
def unknownChannelResp (req : ChannelRPCRequest) : ChannelRPCResponseInit :=
  { requestID := req.requestID, subcommand := req.subcommand,
    status := { Type' := PVStatusType.FATAL, message := "unknown channel ID " ++ intToHex req.serverChannelID } }

/-- Response body for a CreateChannelRequest whose entry count is not one. -/
def wrongCountResp : CreateChannelResponse :=
  { clientChannelID := 0, serverChannelID := 0,
    status := { Type' := PVStatusType.ERROR, message := "wrong number of channels" } }

/-- Message sent for a CreateChannelRequest whose entry count is not one. -/
def wrongCountSent : SentApp :=
  { command := APP_CHANNEL_CREATE, body := AppBody.createChannelResp wrongCountResp }

/-- Example request in status READY bound to demoRPCFn. -/
def rqReady : Request := { doer := Doer.rpc demoRPCFn, status := RequestStatus.READY }

/-- Example spawned task whose subcommand carries the DESTROY flag. -/
def taskDestroy : SpawnedExec :=
  { rpcer := demoRPCFn, args := {}, requestID := 7, subcommand := 80 }

/-- Example spawned task whose subcommand does not carry the DESTROY flag. -/
def taskPlain : SpawnedExec :=
  { rpcer := demoRPCFn, args := {}, requestID := 7, subcommand := 64 }

/-- Example CHANNEL_RPC request whose argument payload is not a structure. -/
def reqC8 : ChannelRPCRequest :=
  { serverChannelID := 1, requestID := 9, subcommand := 64,
    pvRequestData := PVData.nonStruct "string" }

/-- Example unknown-command message. -/
def msgC9 : Message := { command := 99, body := MessageBody.undecodable }

/-- Invariant for C10: every request stored in the request table carries an
RPC executor as its doer. -/
def DoersRPC (c : ServerConn) : Prop :=
  ∀ id r, mlookup c.requests id = some r → ∃ f, r.doer = Doer.rpc f

/-- Predicate transporting DoersRPC onto the state carried by a body result. -/
def resultConnInv : BodyResult → Prop
  | BodyResult.err _ c1 => DoersRPC c1
  | BodyResult.ok c1 => DoersRPC c1
  | BodyResult.async c1 _ => DoersRPC c1
  | BodyResult.nilDeref => True

theorem mlookup_minsert {α : Type} (m : List (Int × α)) (k k2 : Int) (v : α) :
    mlookup (minsert m k v) k2 = if k = k2 then some v else mlookup m k2 := by
  induction m with
  | nil => rfl
  | cons hd tl ih =>
    obtain ⟨k1, v1⟩ := hd
    simp only [minsert]
    by_cases h1 : k1 = k
    · subst h1
      simp only [if_pos rfl, mlookup]
      by_cases h2 : k1 = k2 <;> simp [h2]
    · simp only [if_neg h1, mlookup, ih]
      by_cases h2 : k1 = k2
      · subst h2
        have hk : ¬ k = k1 := fun h => h1 h.symm
        simp [hk]
      · simp [h2]

theorem addRequest_ok_eq (reqs : List (Int × Request)) (id : Int) (r : Request)
    (reqs2 : List (Int × Request)) (h : addRequest reqs id r = Except.ok reqs2) :
    reqs2 = minsert reqs id r := by
  unfold addRequest at h
  split at h
  · split at h
    · cases h
    · injection h with h
      exact h.symm
  · injection h with h
    exact h.symm

theorem createChannel_requests (providers : List ChannelProvider) (c : ServerConn)
    (id : Int) (name : String) (och : Option Channel) (c1 : ServerConn)
    (h : createChannel providers c id name = Except.ok (och, c1)) :
    c1.requests = c.requests := by
  induction providers with
  | nil =>
    unfold createChannel at h
    injection h with h
    rw [← (Prod.mk.injEq _ _ _ _).mp h |>.2]
  | cons p rest ih =>
    unfold createChannel at h
    split at h
    · cases h
    · injection h with h
      rw [← (Prod.mk.injEq _ _ _ _).mp h |>.2]
    · exact ih h

theorem handleCreateChannelRequest_requests (providers : List ChannelProvider)
    (c : ServerConn) (req : CreateChannelRequestMsg) :
    ((handleCreateChannelRequest providers c req).2).requests = c.requests := by
  obtain ⟨chs⟩ := req
  cases chs with
  | nil => rfl
  | cons ch rest =>
    cases rest with
    | cons ch2 rest2 => rfl
    | nil =>
      unfold handleCreateChannelRequest
      rcases hcc : createChannel providers c ch.clientChannelID ch.channelName
        with e | ⟨och, c1⟩
      · simp only [hcc]
      · cases och with
        | none =>
          simp only [hcc]
          exact createChannel_requests _ _ _ _ _ _ hcc
        | some ch2 =>
          simp only [hcc]
          exact createChannel_requests _ _ _ _ _ _ hcc

theorem DoersRPC_of_eq (c c2 : ServerConn) (h : c2.requests = c.requests)
    (hInv : DoersRPC c) : DoersRPC c2 := by
  intro id r hr
  rw [h] at hr
  exact hInv id r hr

theorem initFinish_preserves (c : ServerConn) (req : ChannelRPCRequest)
    (rpcer : ChannelRPCFn) (hInv : DoersRPC c) :
    resultConnInv (initFinish c req rpcer) := by
  unfold initFinish
  split
  · exact hInv
  case _ reqs2 hadd =>
    intro id r hr
    rw [addRequest_ok_eq _ _ _ _ hadd] at hr
    simp only at hr
    rw [mlookup_minsert] at hr
    split at hr
    · injection hr with hr
      subst hr
      exact ⟨rpcer, rfl⟩
    · exact hInv id r hr

theorem body_preserves (c : ServerConn) (req : ChannelRPCRequest)
    (hInv : DoersRPC c) : resultConnInv (handleChannelRPCBody c req) := by
  unfold handleChannelRPCBody
  split
  · exact hInv
  split
  · exact hInv
  split
  · split
    · split
      · exact hInv
      · exact initFinish_preserves c req _ hInv
    · split
      · exact initFinish_preserves c req _ hInv
      · exact hInv
  · split
    · trivial
    case _ r heq =>
      split
      · exact hInv
      · split
        case _ rpcer hdoer =>
          intro id r2 hr2
          simp only at hr2
          rw [mlookup_minsert] at hr2
          split at hr2
          · injection hr2 with hr2
            subst hr2
            exact ⟨rpcer, hdoer⟩
          · exact hInv id r2 hr2
        · exact hInv

theorem handleChannelRPC_preserves (c : ServerConn) (req : ChannelRPCRequest)
    (hInv : DoersRPC c) :
    (∀ resp c1, handleChannelRPC c req = RPCHandlerResult.sent resp c1 → DoersRPC c1) ∧
    (∀ c1 task, handleChannelRPC c req = RPCHandlerResult.asyncStarted c1 task → DoersRPC c1) := by
  have hb := body_preserves c req hInv
  constructor
  · intro resp c1 h2
    unfold handleChannelRPC at h2
    rcases hr : handleChannelRPCBody c req with ⟨e, c2⟩ | ⟨c2⟩ | ⟨c2, task2⟩ | _ <;>
      rw [hr] at h2 hb <;> simp only [resultConnInv] at hb
    · injection h2 with h2a h2b
      subst h2b
      exact hb
    · injection h2 with h2a h2b
      subst h2b
      exact hb
    · cases h2
    · cases h2
  · intro c1 task h2
    unfold handleChannelRPC at h2
    rcases hr : handleChannelRPCBody c req with ⟨e, c2⟩ | ⟨c2⟩ | ⟨c2, task2⟩ | _ <;>
      rw [hr] at h2 hb <;> simp only [resultConnInv] at hb
    · cases h2
    · cases h2
    · injection h2 with h2a h2b
      subst h2a
      exact hb
    · cases h2

theorem packet_preserves (providers : List ChannelProvider) (c : ServerConn)
    (msg : Message) (c1 : ServerConn) (sent : List SentApp)
    (spawned : Option SpawnedExec)
    (h : handleServerOnePacket providers c msg = PacketResult.ok c1 sent spawned)
    (hInv : DoersRPC c) : DoersRPC c1 := by
  obtain ⟨cmd, body⟩ := msg
  cases body with
  | connValidationResp =>
    unfold handleServerOnePacket handleConnectionValidation handleSearchRequest at h
    split at h
    · injection h with h1 h2
      subst h1
      exact hInv
    split at h
    · cases h
    split at h
    · cases h
    split at h
    · cases h
    · injection h with h1 h2
      subst h1
      exact hInv
  | createChannelReq m =>
    unfold handleServerOnePacket handleConnectionValidation handleSearchRequest at h
    split at h
    · cases h
    split at h
    · rcases hcc : handleCreateChannelRequest providers c m with ⟨out, c2⟩
      simp only [hcc] at h
      injection h with h1 h2
      refine DoersRPC_of_eq _ _ ?_ hInv
      have h3 := handleCreateChannelRequest_requests providers c m
      rw [hcc] at h3
      rw [← h1]
      exact h3
    split at h
    · cases h
    split at h
    · cases h
    · injection h with h1 h2
      subst h1
      exact hInv
  | channelRPCReq m =>
    unfold handleServerOnePacket handleConnectionValidation handleSearchRequest at h
    split at h
    · cases h
    split at h
    · cases h
    split at h
    · rcases hrpc : handleChannelRPC c m with ⟨resp, c2⟩ | ⟨c2, task⟩ | _ <;>
        simp only [hrpc] at h
      · injection h with h1 h2
        subst h1
        exact (handleChannelRPC_preserves c m hInv).1 _ _ hrpc
      · injection h with h1 h2
        subst h1
        exact (handleChannelRPC_preserves c m hInv).2 _ _ hrpc
      · cases h
    split at h
    · cases h
    · injection h with h1 h2
      subst h1
      exact hInv
  | searchReq =>
    unfold handleServerOnePacket handleConnectionValidation handleSearchRequest at h
    split at h
    · cases h
    split at h
    · cases h
    split at h
    · cases h
    split at h
    · injection h with h1 h2
      subst h1
      exact hInv
    · injection h with h1 h2
      subst h1
      exact hInv
  | undecodable =>
    unfold handleServerOnePacket handleConnectionValidation handleSearchRequest at h
    split at h
    · cases h
    split at h
    · cases h
    split at h
    · cases h
    split at h
    · cases h
    · injection h with h1 h2
      subst h1
      exact hInv

theorem execTaskFinish_doer (task : SpawnedExec) (r : Request) :
    ((execTaskFinish task r).2).doer = r.doer := by
  unfold execTaskFinish
  dsimp only
  split <;> rfl

theorem taskFinish_preserves (c : ServerConn) (task : SpawnedExec) (r : Request)
    (h : mlookup c.requests task.requestID = some r) (hInv : DoersRPC c) :
    DoersRPC { c with requests := minsert c.requests task.requestID (execTaskFinish task r).2 } := by
  intro id r2 hr2
  simp only at hr2
  rw [mlookup_minsert] at hr2
  split at hr2
  · injection hr2 with hr2
    subst hr2
    rw [execTaskFinish_doer]
    exact hInv _ _ h
  · exact hInv id r2 hr2

theorem reachable_DoersRPC (providers : List ChannelProvider) (c : ServerConn)
    (h : Reachable providers c) : DoersRPC c := by
  unfold Reachable at h
  induction h with
  | refl =>
    intro id r hr
    cases hr
  | tail hab hbc ih =>
    cases hbc
    case packet a b d e f => exact packet_preserves _ _ _ _ _ _ f ih
    case taskFinish a b d => exact taskFinish_preserves _ _ _ d ih

/-- C1: the claim says a CHANNEL_RPC EXEC on a request ID with no READY
request, including an ID never registered by a successful INIT, is answered
with an ERROR status reading request not READY while the connection stays
open. On a never-registered ID the code instead misses in the request table,
dereferences the resulting nil request pointer and panics; this theorem
evaluates the embedded handlers at that failing input. -/
theorem exec_unregistered_request_panics :
    handleChannelRPCBody demoConn1 demoExecReq = BodyResult.nilDeref ∧
    handleChannelRPC demoConn1 demoExecReq = RPCHandlerResult.panicked :=
  ⟨rfl, rfl⟩

/-- C2: addRequest rejects a request ID whose existing entry has a status
other than DESTROYED, returning the already-exists error and leaving the
table unchanged (an error result carries no table), and stores the new
request under the ID when no entry exists or the existing entry is
DESTROYED. -/
theorem addRequest_reuse_spec (reqs : List (Int × Request)) (id : Int)
    (r ex : Request) :
    (mlookup reqs id = some ex → ex.status ≠ RequestStatus.DESTROYED →
      addRequest reqs id r = Except.error (GoError.errorf ("request ID " ++
        intToHex id ++ " already exists with status " ++
        requestStatusNames ex.status))) ∧
    (mlookup reqs id = none →
      addRequest reqs id r = Except.ok (minsert reqs id r)) ∧
    (mlookup reqs id = some ex → ex.status = RequestStatus.DESTROYED →
      addRequest reqs id r = Except.ok (minsert reqs id r)) ∧
    mlookup (minsert reqs id r) id = some r := by
  refine ⟨?_, ?_, ?_, ?_⟩
  · intro h1 h2
    simp only [addRequest, h1]
    rw [if_pos h2]
  · intro h1
    simp only [addRequest, h1]
  · intro h1 h2
    simp only [addRequest, h1]
    rw [if_neg (not_not_intro h2)]
  · rw [mlookup_minsert]
    simp

/-- C2 witness: a live entry under ID 1 rejects reuse; a fresh ID 2 stores
the request. -/
theorem addRequest_reuse_spec_witness :
    addRequest [(1, rqReady)] 1 rqReady = Except.error (GoError.errorf
      ("request ID 1 already exists with status READY")) ∧
    addRequest [] 2 rqReady = Except.ok [(2, rqReady)] :=
  ⟨(addRequest_reuse_spec [(1, rqReady)] 1 rqReady rqReady).1 rfl (by decide),
   (addRequest_reuse_spec [] 2 rqReady rqReady).2.1 rfl⟩

/-- C3: when the EXEC subcommand carries the DESTROY flag, the spawned task
leaves the request DESTROYED whatever the executor returned, and without the
flag it returns the request to READY; the executor inside the task is
universally quantified, covering both result and error outcomes. -/
theorem exec_destroy_flag_final_status (task : SpawnedExec) (r : Request) :
    (task.subcommand &&& CHANNEL_RPC_DESTROY = CHANNEL_RPC_DESTROY →
      ((execTaskFinish task r).2).status = RequestStatus.DESTROYED) ∧
    (task.subcommand &&& CHANNEL_RPC_DESTROY ≠ CHANNEL_RPC_DESTROY →
      ((execTaskFinish task r).2).status = RequestStatus.READY) := by
  unfold execTaskFinish
  dsimp only
  constructor
  · intro hf
    rw [if_pos hf]
  · intro hf
    rw [if_neg hf]

/-- C3 witness: subcommand 80 carries the DESTROY bit 16 and ends DESTROYED,
subcommand 64 does not and ends READY. -/
theorem exec_destroy_flag_final_status_witness :
    ((execTaskFinish taskDestroy rqReady).2).status = RequestStatus.DESTROYED ∧
    ((execTaskFinish taskPlain rqReady).2).status = RequestStatus.READY :=
  ⟨(exec_destroy_flag_final_status taskDestroy rqReady).1 (by decide),
   (exec_destroy_flag_final_status taskPlain rqReady).2 (by decide)⟩

/-- C5 counterexample: a CHANNEL_RPC INIT on a channel ID absent from the
channel table of the connection is answered with a status of severity FATAL,
not ERROR as the claim states; the state is returned unchanged, so no request
is registered. -/
theorem init_unknown_channel_error_cex :
    handleChannelRPC initialConn reqC5 = RPCHandlerResult.sent respC5 initialConn ∧
    respC5.status.Type' = PVStatusType.FATAL ∧
    PVStatusType.FATAL ≠ PVStatusType.ERROR :=
  ⟨rfl, rfl, by decide⟩

/-- C5 amended: a CHANNEL_RPC on an unknown server channel ID is answered
with a status of severity FATAL carrying the unknown-channel message (the
plain error wrapped by errorToStatus), the connection state is unchanged so
no request is registered, and a reply is sent so the connection stays open. -/
theorem init_unknown_channel_spec (c : ServerConn) (req : ChannelRPCRequest)
    (h : mlookup c.channels req.serverChannelID = none) :
    handleChannelRPC c req = RPCHandlerResult.sent (unknownChannelResp req) c ∧
    (unknownChannelResp req).status.Type' = PVStatusType.FATAL := by
  constructor
  · unfold handleChannelRPC handleChannelRPCBody
    rw [h]
    exact rfl
  · rfl

/-- C5 witness: the amended statement applied at the initial state and a
concrete INIT on channel ID 42. -/
theorem init_unknown_channel_spec_witness :
    handleChannelRPC initialConn reqC5 =
      RPCHandlerResult.sent (unknownChannelResp reqC5) initialConn ∧
    (unknownChannelResp reqC5).status.Type' = PVStatusType.FATAL :=
  init_unknown_channel_spec initialConn reqC5 rfl

/-- C6: a CreateChannelRequest with zero or several entries is answered on
the APP_CHANNEL_CREATE command code with the wrong-number-of-channels ERROR
status and an unchanged connection state, so no channel is registered. -/
theorem create_channel_wrong_count (providers : List ChannelProvider)
    (c : ServerConn) (req : CreateChannelRequestMsg)
    (h : req.channels.length ≠ 1) :
    handleCreateChannelRequest providers c req = (wrongCountSent, c) ∧
    wrongCountSent.command = APP_CHANNEL_CREATE ∧
    wrongCountResp.status.Type' = PVStatusType.ERROR := by
  refine ⟨?_, rfl, rfl⟩
  obtain ⟨chs⟩ := req
  cases chs with
  | nil => rfl
  | cons ch rest =>
    cases rest with
    | nil => exact absurd rfl h
    | cons ch2 rest2 => rfl

/-- C6 witness: the empty entry list on the initial state. -/
theorem create_channel_wrong_count_witness :
    handleCreateChannelRequest demoProviders initialConn ({ channels := [] }) =
      (wrongCountSent, initialConn) ∧
    wrongCountSent.command = APP_CHANNEL_CREATE ∧
    wrongCountResp.status.Type' = PVStatusType.ERROR :=
  create_channel_wrong_count demoProviders initialConn ({ channels := [] }) (by decide)

/-- C7: errorToStatus maps nil to the zero status whose severity is OK,
passes a PVStatus error through unchanged, and wraps any other error as
severity FATAL with its message. -/
theorem errorToStatus_spec (s : PVStatus) (m : String) :
    errorToStatus none = ({} : PVStatus) ∧
    ({} : PVStatus).Type' = PVStatusType.OK ∧
    errorToStatus (some (GoError.status s)) = s ∧
    errorToStatus (some (GoError.errorf m)) =
      { Type' := PVStatusType.FATAL, message := m } :=
  ⟨rfl, rfl, rfl, rfl⟩

/-- C8: a ChannelRPCRequest of any subcommand whose argument payload is not a
structure makes the whole body return the wrong-type error before the
subcommand switch: the state is unchanged (no request registered), no
asynchronous execution starts and no INIT success is possible. -/
theorem rpc_nonstruct_args_error (c : ServerConn) (req : ChannelRPCRequest)
    (chan : Channel) (t : String)
    (hch : mlookup c.channels req.serverChannelID = some chan)
    (ht : req.pvRequestData = PVData.nonStruct t) :
    handleChannelRPCBody c req = BodyResult.err (GoError.errorf
      ("RPC arguments were of type " ++ t ++ ", expected PVStructure")) c ∧
    (∀ c1 task, handleChannelRPCBody c req ≠ BodyResult.async c1 task) ∧
    (∀ c1, handleChannelRPCBody c req ≠ BodyResult.ok c1) := by
  have h1 : handleChannelRPCBody c req = BodyResult.err (GoError.errorf
      ("RPC arguments were of type " ++ t ++ ", expected PVStructure")) c := by
    unfold handleChannelRPCBody
    rw [hch, ht]
  refine ⟨h1, ?_, ?_⟩
  · intro c1 task hcontra
    rw [h1] at hcontra
    cases hcontra
  · intro c1 hcontra
    rw [h1] at hcontra
    cases hcontra

/-- C8 witness: an EXEC whose payload decoded as a Go string on a known
channel. -/
theorem rpc_nonstruct_args_error_witness :
    handleChannelRPCBody demoConn1 reqC8 = BodyResult.err (GoError.errorf
      ("RPC arguments were of type string, expected PVStructure")) demoConn1 :=
  (rpc_nonstruct_args_error demoConn1 reqC8 demoChannel "string" rfl rfl).1

/-- C9: a message whose command code is none of the four dispatched codes is
ignored: the handler returns without error, sends nothing, spawns nothing and
leaves the state unchanged, so the read loop continues. -/
theorem unknown_command_ignored (providers : List ChannelProvider)
    (c : ServerConn) (msg : Message)
    (h1 : msg.command ≠ APP_CONNECTION_VALIDATION)
    (h2 : msg.command ≠ APP_CHANNEL_CREATE)
    (h3 : msg.command ≠ APP_CHANNEL_RPC)
    (h4 : msg.command ≠ APP_SEARCH_REQUEST) :
    handleServerOnePacket providers c msg = PacketResult.ok c [] none := by
  unfold handleServerOnePacket
  rw [if_neg h1, if_neg h2, if_neg h3, if_neg h4]

/-- C4: on a known channel, INIT picks the executor from the RPC-factory
capability first (propagating a factory error), falls back to the channel
itself as direct executor, and fails with the does-not-support-RPC error when
neither capability is present; a successful resolution registers the request
with status READY under the request ID; INIT never spawns background work and
an INIT success is answered synchronously with the OK status. -/
theorem init_branch_spec (c : ServerConn) (req : ChannelRPCRequest)
    (chan : Channel) (args : PVStructure)
    (hch : mlookup c.channels req.serverChannelID = some chan)
    (hargs : req.pvRequestData = PVData.struct args)
    (hsub : req.subcommand = CHANNEL_RPC_INIT) :
    (∀ create, chan.createChannelRPC = some create →
      (∀ e, create args = Except.error e →
        handleChannelRPCBody c req = BodyResult.err e c) ∧
      (∀ f, create args = Except.ok f →
        handleChannelRPCBody c req = initFinish c req f)) ∧
    (chan.createChannelRPC = none → ∀ f, chan.channelRPC = some f →
      handleChannelRPCBody c req = initFinish c req f) ∧
    (chan.createChannelRPC = none → chan.channelRPC = none →
      handleChannelRPCBody c req = BodyResult.err (GoError.errorf
        ("channel \"" ++ chan.name ++ "\" (ID " ++
          intToHex req.serverChannelID ++ ") does not support RPC")) c) ∧
    (∀ f e, addRequest c.requests req.requestID
        ({ doer := Doer.rpc f, status := RequestStatus.READY }) = Except.error e →
      initFinish c req f = BodyResult.err e c) ∧
    (∀ f reqs2, addRequest c.requests req.requestID
        ({ doer := Doer.rpc f, status := RequestStatus.READY }) = Except.ok reqs2 →
      initFinish c req f = BodyResult.ok { c with requests := reqs2 } ∧
      mlookup reqs2 req.requestID = some
        ({ doer := Doer.rpc f, status := RequestStatus.READY })) ∧
    (∀ c1 task, handleChannelRPCBody c req ≠ BodyResult.async c1 task) ∧
    (∀ c1, handleChannelRPCBody c req = BodyResult.ok c1 →
      handleChannelRPC c req = RPCHandlerResult.sent
        ({ requestID := req.requestID, subcommand := req.subcommand, status := {} }) c1) := by
  refine ⟨?_, ?_, ?_, ?_, ?_, ?_, ?_⟩
  · intro create hcr
    constructor
    · intro e he
      simp [handleChannelRPCBody, hch, hargs, hsub, hcr, he]
    · intro f hf
      simp [handleChannelRPCBody, hch, hargs, hsub, hcr, hf]
  · intro hcr f hf
    simp [handleChannelRPCBody, hch, hargs, hsub, hcr, hf]
  · intro hcr hrf
    simp [handleChannelRPCBody, hch, hargs, hsub, hcr, hrf]
  · intro f e hadd
    simp [initFinish, hadd]
  · intro f reqs2 hadd
    constructor
    · simp [initFinish, hadd]
    · rw [addRequest_ok_eq _ _ _ _ hadd, mlookup_minsert]
      simp
  · intro c1 task hcontra
    rcases hcr : chan.createChannelRPC with _ | create
    · rcases hrf : chan.channelRPC with _ | f
      · simp [handleChannelRPCBody, hch, hargs, hsub, hcr, hrf] at hcontra
      · rcases hadd : addRequest c.requests req.requestID
            ({ doer := Doer.rpc f, status := RequestStatus.READY }) with e | reqs2 <;>
          simp [handleChannelRPCBody, initFinish, hch, hargs, hsub, hcr, hrf, hadd] at hcontra
    · rcases hce : create args with e | f
      · simp [handleChannelRPCBody, hch, hargs, hsub, hcr, hce] at hcontra
      · rcases hadd : addRequest c.requests req.requestID
            ({ doer := Doer.rpc f, status := RequestStatus.READY }) with e | reqs2 <;>
          simp [handleChannelRPCBody, initFinish, hch, hargs, hsub, hcr, hce, hadd] at hcontra
  · intro c1 hok
    simp [handleChannelRPC, hok, errorToStatus]

/-- C4 witness: on demoChannel, which has no factory and a direct executor,
INIT resolves the channel itself as executor and registers the READY
request. -/
theorem init_branch_spec_witness :
    handleChannelRPCBody demoConn1 demoInitReq = initFinish demoConn1 demoInitReq demoRPCFn :=
  ((init_branch_spec demoConn1 demoInitReq demoChannel {} rfl rfl rfl).2.1) rfl demoRPCFn rfl

/-- C10: on every reachable connection state, each request stored in the
request table carries an RPC executor as its doer, so an EXEC that finds its
request READY always reaches the asynchronous execution branch and the
request-not-for-RPC error branch is unreachable. -/
theorem requests_always_rpc (providers : List ChannelProvider) (c : ServerConn)
    (h : Reachable providers c) :
    (∀ id r, mlookup c.requests id = some r → ∃ f, r.doer = Doer.rpc f) ∧
    (∀ req chan args r, mlookup c.channels req.serverChannelID = some chan →
      req.pvRequestData = PVData.struct args →
      req.subcommand ≠ CHANNEL_RPC_INIT →
      mlookup c.requests req.requestID = some r →
      r.status = RequestStatus.READY →
      ∃ c1 task, handleChannelRPCBody c req = BodyResult.async c1 task) := by
  have hInv := reachable_DoersRPC providers c h
  refine ⟨hInv, ?_⟩
  intro req chan args r hch hargs hsub hr hready
  obtain ⟨f, hf⟩ := hInv _ _ hr
  have hbody : handleChannelRPCBody c req =
      BodyResult.async
        ({ c with requests := minsert c.requests req.requestID ({ doer := Doer.rpc f, hasCancel := true, status := RequestStatus.REQUEST_IN_PROGRESS }) })
        ({ rpcer := f, args := args, requestID := req.requestID, subcommand := req.subcommand }) := by
    simp [handleChannelRPCBody, hch, hargs, hsub, hr, hready, hf]
  exact ⟨_, _, hbody⟩

/-- C10 witness: a state reached by creating channel 1 and then INIT of
request 7; the EXEC on the READY request reaches the asynchronous branch. -/
theorem requests_always_rpc_witness :
    ∃ c1 task, handleChannelRPCBody demoConn2 demoExecReq = BodyResult.async c1 task := by
  have hreach : Reachable demoProviders demoConn2 :=
    Relation.ReflTransGen.tail
      (Relation.ReflTransGen.tail Relation.ReflTransGen.refl
        (ConnStep.packet initialConn demoCreateMsg demoConn1 _ _ rfl))
      (ConnStep.packet demoConn1 demoInitMsg demoConn2 _ _ rfl)
  exact (requests_always_rpc demoProviders demoConn2 hreach).2 demoExecReq demoChannel {} _
    rfl rfl (by decide) rfl rfl

/-- C9 witness: command code 99 on a populated state. -/
theorem unknown_command_ignored_witness :
    handleServerOnePacket demoProviders demoConn1 msgC9 =
      PacketResult.ok demoConn1 [] none :=
  unknown_command_ignored demoProviders demoConn1 msgC9
    (by decide) (by decide) (by decide) (by decide)

end PvAccess
